import Mathlib

/-!
Shallow embedding of the proxy-scraper-api service (app/main.py, app/models.py,
app/schemas.py): a FastAPI CRUD + analytics layer over a `scrape_tasks` table
and four externally populated tables (`task_runs`, `listing_task_runs`,
`listings`, `listing_snapshots`).

Timestamps are modelled as `Int` (comparison is all the code uses), JSONB
maps as association lists of string key/value pairs, and the database as
lists of rows.  Each endpoint of app/main.py that the verified properties
touch is translated into a pure function from the request parameters and a
database state to a response value and (for mutating endpoints) the new
database state.
-/

namespace ScrapeAPI

/-- JSONB maps (`meta`, `stats`, snapshot `data`): association lists. -/
abbrev JsonMap := List (String × String)

/-- `->> k`: value of key `k` as text, `none` when absent (SQL NULL). -/
def jsonGet (m : JsonMap) (k : String) : Option String :=
  (m.find? (fun kv => kv.1 == k)).map (fun kv => kv.2)

/-- A row of `scrape_tasks` (app/models.py, class ScrapeTask). -/
structure ScrapeTask where
  id : Nat
  site : String
  url : String
  task_type : String
  status : String
  scheduled_at : Option Int
  locked_at : Option Int
  attempts : Nat
  max_attempts : Nat
  last_error : Option String
  meta : JsonMap
  created_at : Int
  updated_at : Int
deriving DecidableEq

/-- A row of `task_runs` (externally populated; read by the analytics SQL). -/
structure TaskRun where
  id : Nat
  task_id : Nat
  url : String
  auctioneer_name : Option String
  stats : JsonMap
  created_at : Int
deriving DecidableEq

/-- A row of `listings`. -/
structure Listing where
  id : Nat
  url : String
  title : String
deriving DecidableEq

/-- A row of the `listing_task_runs` join table. -/
structure ListingTaskRun where
  task_run_id : Nat
  listing_id : Nat
deriving DecidableEq

/-- A row of `listing_snapshots`. -/
structure ListingSnapshot where
  id : Nat
  listing_id : Nat
  snapshot_type : String
  data : JsonMap
  created_at : Int
deriving DecidableEq

/-- The five-table database state. -/
structure DB where
  scrape_tasks : List ScrapeTask
  task_runs : List TaskRun
  listing_task_runs : List ListingTaskRun
  listings : List Listing
  listing_snapshots : List ListingSnapshot
deriving DecidableEq

/-! ## Auth gate (app/main.py, require_api_key) -/

/-- Outcome of the dependency `require_api_key`: raise 500, raise 401, or
let the request through to the handler. -/
inductive AuthResult
  | serverError
  | unauthorized
  | ok
deriving DecidableEq

/-- `require_api_key`: `expected` is `os.getenv("API_KEY")` (`none` when the
variable is unset) and `api_key` the `X-API-Key` header value (`none` when
absent).  Python's `if not expected` is taken when the variable is unset or
holds the empty string; `api_key != expected` compares the optional header
against the configured string. -/
def require_api_key (expected api_key : Option String) : AuthResult :=
  match expected with
  | none => .serverError
  | some e =>
    if e = "" then .serverError
    else if api_key = some e then .ok
    else .unauthorized

/-! ## Create (app/main.py, create_scrape_task) -/

/-- The POST /scrape_tasks payload (app/schemas.py, ScrapeTaskCreate) after
`model_dump(exclude_unset=True)`.  An optional field that was omitted or sent
as null reaches the handler as `none`; `status` is forced to "pending" by the
handler in that case, and the database server defaults fill `attempts` (0),
`max_attempts` (5) and `meta` (empty). -/
structure ScrapeTaskCreate where
  site : String
  url : String
  task_type : String
  status : Option String
  scheduled_at : Option Int
  locked_at : Option Int
  attempts : Option Nat
  max_attempts : Option Nat
  last_error : Option String
  meta : Option JsonMap
deriving DecidableEq

/-- Result of POST /scrape_tasks: 409 carrying the existing pending task's
id in the body, or 201 carrying the created row. -/
inductive CreateResult
  | conflict (id : Nat)
  | created (task : ScrapeTask)
deriving DecidableEq

/-- The pending-duplicate existence query of `create_scrape_task`: same
site, url and task_type, status pending, and the same `scheduled_at` where
SQL `IS NULL` is used when the payload's value is null (so null equals
null). -/
def pendingDuplicate (p : ScrapeTaskCreate) (t : ScrapeTask) : Bool :=
  t.site == p.site && t.url == p.url && t.task_type == p.task_type &&
    t.status == "pending" && t.scheduled_at == p.scheduled_at

/-- `create_scrape_task`: check for a pending duplicate first; on a hit
return 409 with the existing id and leave the database alone, otherwise
insert the new row (`newId` stands for the database-assigned id, `now` for
the server clock driving created_at/updated_at). -/
def create_scrape_task (now : Int) (newId : Nat) (p : ScrapeTaskCreate) (db : DB) :
    CreateResult × DB :=
  match db.scrape_tasks.find? (pendingDuplicate p) with
  | some existing => (.conflict existing.id, db)
  | none =>
    let task : ScrapeTask :=
      { id := newId
        site := p.site
        url := p.url
        task_type := p.task_type
        status := p.status.getD "pending"
        scheduled_at := p.scheduled_at
        locked_at := p.locked_at
        attempts := p.attempts.getD 0
        max_attempts := p.max_attempts.getD 5
        last_error := p.last_error
        meta := p.meta.getD []
        created_at := now
        updated_at := now }
    (.created task, { db with scrape_tasks := db.scrape_tasks ++ [task] })

/-! ## Get by id (app/main.py, get_scrape_task) -/

/-- `get_scrape_task`: `none` is the 404 branch. -/
def get_scrape_task (task_id : Nat) (db : DB) : Option ScrapeTask :=
  db.scrape_tasks.find? (fun t => t.id == task_id)

/-! ## Partial update (app/main.py, update_scrape_task) -/

/-- The PATCH payload (app/schemas.py, ScrapeTaskUpdate) after
`model_dump(exclude_unset=True)`: the outer `Option` is none when the field
was left out of the request body.  For the nullable columns (`scheduled_at`,
`locked_at`, `last_error`) and for `meta` the inner `Option` records an
explicit JSON null.  For the NOT NULL columns an explicit null would only
fail at commit time on the database constraint, so they are modelled as
present-or-absent. -/
structure ScrapeTaskUpdate where
  site : Option String
  url : Option String
  task_type : Option String
  status : Option String
  scheduled_at : Option (Option Int)
  locked_at : Option (Option Int)
  attempts : Option Nat
  max_attempts : Option Nat
  last_error : Option (Option String)
  meta : Option (Option JsonMap)
deriving DecidableEq

/-- The `setattr` loop of `update_scrape_task` plus the final
`task.updated_at = now`.  `data.pop("meta")` when the payload's meta is an
explicit null means both an absent and a null meta leave the stored meta
alone; a concrete object replaces it wholesale. -/
def applyUpdate (now : Int) (p : ScrapeTaskUpdate) (t : ScrapeTask) : ScrapeTask :=
  { t with
    site := p.site.getD t.site
    url := p.url.getD t.url
    task_type := p.task_type.getD t.task_type
    status := p.status.getD t.status
    scheduled_at := p.scheduled_at.getD t.scheduled_at
    locked_at := p.locked_at.getD t.locked_at
    attempts := p.attempts.getD t.attempts
    max_attempts := p.max_attempts.getD t.max_attempts
    last_error := p.last_error.getD t.last_error
    meta :=
      match p.meta with
      | some (some m) => m
      | _ => t.meta
    updated_at := now }

/-- Commit of the updated ORM object: the first row with the task's primary
key is overwritten, the rest of the table is untouched. -/
def setTask (task_id : Nat) (t2 : ScrapeTask) : List ScrapeTask → List ScrapeTask
  | [] => []
  | u :: us => if u.id == task_id then t2 :: us else u :: setTask task_id t2 us

/-- `update_scrape_task`: `none` is the 404 branch; otherwise the refreshed
row and the new database state. -/
def update_scrape_task (now : Int) (task_id : Nat) (p : ScrapeTaskUpdate) (db : DB) :
    Option (ScrapeTask × DB) :=
  match db.scrape_tasks.find? (fun t => t.id == task_id) with
  | none => none
  | some t =>
    let t2 := applyUpdate now p t
    some (t2, { db with scrape_tasks := setTask task_id t2 db.scrape_tasks })

/-! ## Delete by id (app/main.py, delete_scrape_task) -/

/-- Outcome of DELETE /scrape_tasks/id: 404, 409, or 204. -/
inductive DeleteResult
  | notFound
  | conflict
  | deleted
deriving DecidableEq

/-- `delete_scrape_task`: 404 when no row has the id; 409 when the row's
status is not in pending or failed (the source tests
`task.status not in \x7b"pending", "failed"\x7d`); otherwise the row is
removed and 204 returned. -/
def delete_scrape_task (task_id : Nat) (db : DB) : DeleteResult × DB :=
  match db.scrape_tasks.find? (fun t => t.id == task_id) with
  | none => (.notFound, db)
  | some t =>
    if t.status == "pending" || t.status == "failed" then
      (.deleted,
        { db with scrape_tasks := db.scrape_tasks.eraseP (fun u => u.id == task_id) })
    else (.conflict, db)

/-! ## Pending queries (app/main.py, list_next_pending_tasks and
list_pending_future_tasks) -/

/-- ORDER BY scheduled_at ASC NULLS LAST, as a relation on rows. -/
def schedLeB (a b : ScrapeTask) : Bool :=
  match a.scheduled_at, b.scheduled_at with
  | none, none => true
  | none, some _ => false
  | some _, none => true
  | some x, some y => decide (x ≤ y)

def schedLe (a b : ScrapeTask) : Prop := schedLeB a b = true

instance : DecidableRel schedLe := fun a b => Bool.decEq (schedLeB a b) true

/-- A `total`/`items` response (app/schemas.py, ScrapeTaskListResponse). -/
structure TaskPage where
  total : Nat
  items : List ScrapeTask
deriving DecidableEq

/-- The WHERE clause of `list_next_pending_tasks`: status pending, and
scheduled_at IS NULL or not after `now`. -/
def nextPendingPred (now : Int) (t : ScrapeTask) : Bool :=
  t.status == "pending" &&
    (match t.scheduled_at with
     | none => true
     | some s => decide (s ≤ now))

/-- `list_next_pending_tasks`: total counts the whole matched set, items is
the ordered matched set truncated to `limit` (Query bounds: 1 ≤ limit ≤ 500,
default 100). -/
def list_next_pending_tasks (now : Int) (limit : Nat) (db : DB) : TaskPage :=
  let matched := db.scrape_tasks.filter (nextPendingPred now)
  { total := matched.length, items := (matched.insertionSort schedLe).take limit }

/-- The WHERE clause of `list_pending_future_tasks`: status pending,
scheduled_at IS NOT NULL and strictly after `now`. -/
def pendingFuturePred (now : Int) (t : ScrapeTask) : Bool :=
  t.status == "pending" &&
    (match t.scheduled_at with
     | none => false
     | some s => decide (now < s))

/-- `list_pending_future_tasks` (GET /analytics/scrape_tasks/pending_future). -/
def list_pending_future_tasks (now : Int) (limit : Nat) (db : DB) : TaskPage :=
  let matched := db.scrape_tasks.filter (pendingFuturePred now)
  { total := matched.length, items := (matched.insertionSort schedLe).take limit }

/-! ## List with filters (app/main.py, list_scrape_tasks) -/

/-- The optional equality/range query parameters of GET /scrape_tasks. -/
structure ListFilters where
  task_type : Option String
  status : Option String
  site : Option String
  scheduled_at : Option Int
  scheduled_at_from : Option Int
  scheduled_at_to : Option Int
  created_at : Option Int
  created_at_from : Option Int
  created_at_to : Option Int
deriving DecidableEq

/-- Conjunction of the `query.filter(...)` calls of `list_scrape_tasks`.
A SQL comparison against a NULL `scheduled_at` is not satisfied, hence the
`none => false` branches. -/
def listFilterPred (f : ListFilters) (t : ScrapeTask) : Bool :=
  (match f.task_type with | none => true | some v => t.task_type == v) &&
  (match f.status with | none => true | some v => t.status == v) &&
  (match f.site with | none => true | some v => t.site == v) &&
  (match f.scheduled_at with
   | none => true
   | some v => t.scheduled_at == some v) &&
  (match f.scheduled_at_from, t.scheduled_at with
   | none, _ => true
   | some _, none => false
   | some v, some s => decide (v ≤ s)) &&
  (match f.scheduled_at_to, t.scheduled_at with
   | none, _ => true
   | some _, none => false
   | some v, some s => decide (s ≤ v)) &&
  (match f.created_at with | none => true | some v => t.created_at == v) &&
  (match f.created_at_from with | none => true | some v => decide (v ≤ t.created_at)) &&
  (match f.created_at_to with | none => true | some v => decide (t.created_at ≤ v))

/-- `list_scrape_tasks`: `total = query.count()` before pagination, items
are `query.offset(offset).limit(limit)` in table order (no ORDER BY). -/
def list_scrape_tasks (f : ListFilters) (limit offset : Nat) (db : DB) : TaskPage :=
  let matched := db.scrape_tasks.filter (listFilterPred f)
  { total := matched.length, items := (matched.drop offset).take limit }

/-! ## Recent completed tasks (app/main.py, list_recent_scrape_tasks) -/

/-- COUNT(DISTINCT l.id) of the listings reachable from one task through
task_runs and listing_task_runs (the `listing_counts` CTE; its LEFT JOINs
only matter for producing a 0 count, which the inner-join count also
gives). -/
def listingCount (db : DB) (task_id : Nat) : Nat :=
  (((db.task_runs.filter (fun tr => tr.task_id == task_id)).flatMap (fun tr =>
      (db.listing_task_runs.filter (fun ltr => ltr.task_run_id == tr.id)).flatMap
        (fun ltr =>
          (db.listings.filter (fun l => l.id == ltr.listing_id)).map
            (fun l => l.id)))).dedup).length

/-- ORDER BY updated_at DESC NULLS LAST, created_at DESC (`updated_at` is a
NOT NULL column, so nulls-last is vacuous here). -/
def recentLe (a b : ScrapeTask) : Prop :=
  b.updated_at < a.updated_at ∨
    (a.updated_at = b.updated_at ∧ b.created_at ≤ a.created_at)

instance : DecidableRel recentLe := fun a b => by
  unfold recentLe
  infer_instance

/-- The GET /analytics/scrape_tasks/recent response (app/schemas.py,
ScrapeTaskRecentResponse): items carry the task together with its listing
count. -/
structure RecentPage where
  total : Nat
  items : List (ScrapeTask × Nat)
deriving DecidableEq

/-- `list_recent_scrape_tasks`: done tasks, most recently touched first,
LIMIT applied in SQL; `total` is `len(items)` of the already-truncated page
(Query bounds: 1 ≤ limit ≤ 100, default 20). -/
def list_recent_scrape_tasks (limit : Nat) (db : DB) : RecentPage :=
  let done := db.scrape_tasks.filter (fun t => t.status == "done")
  let items := ((done.insertionSort recentLe).take limit).map
    (fun t => (t, listingCount db t.id))
  { total := items.length, items := items }

/-! ## SQL LIKE -/

/-- SQL LIKE on character lists: `%` matches any run (any suffix of the
remaining string), `_` any single character, anything else itself. -/
def likeMatchL : List Char → List Char → Bool
  | [], s => s.isEmpty
  | p :: ps, s =>
    if p = '%' then s.tails.any (fun t => likeMatchL ps t)
    else
      match s with
      | [] => false
      | c :: cs => if p = '_' then likeMatchL ps cs else p == c && likeMatchL ps cs

/-- SQL `s LIKE pat`. -/
def likeMatch (pat s : String) : Bool := likeMatchL pat.data s.data

/-! ## Cascading cleanup (app/main.py, delete_scrape_task_related_records) -/

/-- Outcome of DELETE /scrape_tasks/related/by_url: 404, the dry-run
preview, or the performed deletion; the latter two carry the matched task
ids the handler returns. -/
inductive RelatedDeleteResult
  | notFound
  | dryRun (task_ids : List Nat)
  | deleted (task_ids : List Nat)
deriving DecidableEq

/-- The task ids carried by a related-delete response body (none on 404). -/
def RelatedDeleteResult.ids : RelatedDeleteResult → List Nat
  | .notFound => []
  | .dryRun task_ids => task_ids
  | .deleted task_ids => task_ids

/-- The id-collection query: catalogue-type tasks whose url is LIKE the
given url followed by `%`. -/
def catalogueTaskIds (url : String) (db : DB) : List Nat :=
  (db.scrape_tasks.filter (fun t =>
    likeMatch (url ++ "%") t.url && t.task_type == "catalogue")).map (fun t => t.id)

/-- `delete_scrape_task_related_records`: collect matched catalogue task
ids (404 when none), stop there on dry_run; otherwise collect the task_run
ids and the distinct listing ids reachable through `listing_task_runs`, and
delete the `listing_task_runs`, `listing_snapshots`, `listings` and
`task_runs` rows so identified, each DELETE guarded by a non-empty id list
as in the source.  The `scrape_tasks` rows themselves are never touched. -/
def delete_scrape_task_related_records (url : String) (dry_run : Bool) (db : DB) :
    RelatedDeleteResult × DB :=
  let task_ids := catalogueTaskIds url db
  if task_ids.isEmpty then (.notFound, db)
  else if dry_run then (.dryRun task_ids, db)
  else
    let task_run_ids :=
      (db.task_runs.filter (fun tr => task_ids.contains tr.task_id)).map (fun tr => tr.id)
    let listing_ids :=
      ((db.listing_task_runs.filter (fun ltr =>
          db.task_runs.any (fun tr =>
            tr.id == ltr.task_run_id && task_ids.contains tr.task_id))).map
        (fun ltr => ltr.listing_id)).dedup
    (.deleted task_ids,
      { scrape_tasks := db.scrape_tasks
        task_runs :=
          if task_run_ids.isEmpty then db.task_runs
          else db.task_runs.filter (fun tr => !task_run_ids.contains tr.id)
        listing_task_runs :=
          if task_run_ids.isEmpty then db.listing_task_runs
          else db.listing_task_runs.filter
            (fun ltr => !task_run_ids.contains ltr.task_run_id)
        listings :=
          if listing_ids.isEmpty then db.listings
          else db.listings.filter (fun l => !listing_ids.contains l.id)
        listing_snapshots :=
          if listing_ids.isEmpty then db.listing_snapshots
          else db.listing_snapshots.filter
            (fun ls => !listing_ids.contains ls.listing_id) })

/-! ## Listing snapshots by catalogue (app/main.py,
list_listing_snapshots_by_catalogue) -/

/-- One row of the by_catalogue join: task_runs joined to listing_task_runs,
listings and listing_snapshots, LEFT JOINed to scrape_tasks on the run's
task_id. -/
structure CatalogueRow where
  task_run : TaskRun
  link : ListingTaskRun
  listing : Listing
  snapshot : ListingSnapshot
  scrape_task : Option ScrapeTask
deriving DecidableEq

/-- The shared FROM/WHERE of the by_catalogue queries: inner joins along
the id chain, the LEFT JOIN to scrape_tasks resolved by primary-key lookup,
and the filter `tr.url LIKE catalogue_url || '%' OR st.url = catalogue_url`
(a NULL st fails the equality, as in SQL). -/
def catalogueRows (catalogue_url : String) (db : DB) : List CatalogueRow :=
  db.task_runs.flatMap (fun tr =>
    db.listing_task_runs.flatMap (fun ltr =>
      db.listings.flatMap (fun l =>
        db.listing_snapshots.flatMap (fun ls =>
          let st := db.scrape_tasks.find? (fun t => t.id == tr.task_id)
          if ltr.task_run_id == tr.id && l.id == ltr.listing_id &&
              ls.listing_id == l.id &&
              (likeMatch (catalogue_url ++ "%") tr.url ||
                (match st with
                 | some t => t.url == catalogue_url
                 | none => false))
          then [⟨tr, ltr, l, ls, st⟩] else []))))

/-- ORDER BY ls.id DESC. -/
def snapIdDescCat (a b : CatalogueRow) : Prop := b.snapshot.id ≤ a.snapshot.id

instance : DecidableRel snapIdDescCat := fun a b => by
  unfold snapIdDescCat
  infer_instance

/-- The GET /listing_snapshots/by_catalogue response (app/schemas.py,
ListingSnapshotResponse). -/
structure SnapshotPage where
  total : Nat
  total_listings : Nat
  next_offset : Option Nat
  items : List CatalogueRow
deriving DecidableEq

/-- `list_listing_snapshots_by_catalogue`: `total` is COUNT(*) of the join,
`total_listings` COUNT(DISTINCT l.id); items are the join ordered by
snapshot id descending with OFFSET/LIMIT; `next_offset` is
`offset + len(rows)` while that stays below `total`, else null. -/
def list_listing_snapshots_by_catalogue
    (catalogue_url : String) (limit offset : Nat) (db : DB) : SnapshotPage :=
  let rows := catalogueRows catalogue_url db
  let total := rows.length
  let items := ((rows.insertionSort snapIdDescCat).drop offset).take limit
  { total := total
    total_listings := ((rows.map (fun r => r.listing.id)).dedup).length
    next_offset :=
      if offset + items.length < total then some (offset + items.length) else none
    items := items }

/-! ## Listings by auctioneer (app/main.py, list_listings_by_auctioneer) -/

/-- One row of the by_auctioneer join (all inner joins, filtered on the
run's auctioneer_name). -/
structure AuctioneerRow where
  task_run : TaskRun
  link : ListingTaskRun
  listing : Listing
  snapshot : ListingSnapshot
deriving DecidableEq

/-- The shared FROM/WHERE of the by_auctioneer queries.  SQL
`tr.auctioneer_name = :auctioneer` is false on a NULL name. -/
def auctioneerRows (auctioneer_name : String) (db : DB) : List AuctioneerRow :=
  db.task_runs.flatMap (fun tr =>
    db.listing_task_runs.flatMap (fun ltr =>
      db.listings.flatMap (fun l =>
        db.listing_snapshots.flatMap (fun ls =>
          if ltr.task_run_id == tr.id && l.id == ltr.listing_id &&
              ls.listing_id == l.id && tr.auctioneer_name == some auctioneer_name
          then [⟨tr, ltr, l, ls⟩] else []))))

/-- One item of the by_auctioneer page: `SELECT DISTINCT l.*` plus the
snapshot-data extractions the statement selects alongside (all functions of
`ls.data`, which the statement also selects whole, so the DISTINCT key is
this record).  The AVG aggregates of the sibling averages query feed three
response fields no verified property touches and are not modelled. -/
structure ListingItem where
  listing : Listing
  est_lo : Option String
  est_hi : Option String
  ended : Option String
  sold : Option String
  data : JsonMap
deriving DecidableEq

/-- The selected columns of one joined row. -/
def listingItemOf (r : AuctioneerRow) : ListingItem :=
  ⟨r.listing, jsonGet r.snapshot.data "estimate_low",
    jsonGet r.snapshot.data "estimate_high", jsonGet r.snapshot.data "auction_end",
    jsonGet r.snapshot.data "sold_price", r.snapshot.data⟩

/-- ORDER BY l.id DESC. -/
def listingIdDesc (a b : ListingItem) : Prop := b.listing.id ≤ a.listing.id

instance : DecidableRel listingIdDesc := fun a b => by
  unfold listingIdDesc
  infer_instance

/-- The GET /listings/by_auctioneer response (app/schemas.py,
ListingResponse, minus the three unmodelled averages). -/
structure ListingPage where
  total : Nat
  total_snapshots : Nat
  next_offset : Option Nat
  items : List ListingItem
deriving DecidableEq

/-- `list_listings_by_auctioneer`: the response's `total` is
COUNT(DISTINCT l.id), `total_snapshots` COUNT(*); items are the DISTINCT
selected rows ordered by listing id descending with LIMIT/OFFSET;
`next_offset` is `offset + len(rows)` while that stays below the distinct
listing count, else null. -/
def list_listings_by_auctioneer
    (auctioneer_name : String) (limit offset : Nat) (db : DB) : ListingPage :=
  let rows := auctioneerRows auctioneer_name db
  let total_listings := ((rows.map (fun r => r.listing.id)).dedup).length
  let items :=
    (((rows.map listingItemOf).dedup.insertionSort listingIdDesc).drop offset).take limit
  { total := total_listings
    total_snapshots := rows.length
    next_offset :=
      if offset + items.length < total_listings then some (offset + items.length)
      else none
    items := items }

/-! ## Concrete sample states for the closed instances -/

/-- A pending task due at time 0. -/
def taskDueA : ScrapeTask :=
  ⟨1, "easylive", "https://a", "listing", "pending", some 0, none, 0, 5, none, [], 0, 0⟩

/-- A second pending task due at time 1. -/
def taskDueB : ScrapeTask :=
  ⟨2, "easylive", "https://b", "listing", "pending", some 1, none, 0, 5, none, [], 0, 0⟩

/-- Two due pending tasks and nothing else. -/
def dbPendingPair : DB := ⟨[taskDueA, taskDueB], [], [], [], []⟩

/-- A pending catalogue task with a null scheduled_at and a non-empty meta. -/
def taskPendingNull : ScrapeTask :=
  ⟨7, "easylive", "https://x/catalogue/1/2", "catalogue", "pending", none, none, 0, 5,
    none, [("k", "v")], 0, 0⟩

/-- A one-task state. -/
def dbOneTask : DB := ⟨[taskPendingNull], [], [], [], []⟩

/-- A create payload duplicating `taskPendingNull`'s tuple with null
scheduled_at. -/
def createDupPayload : ScrapeTaskCreate :=
  ⟨"easylive", "https://x/catalogue/1/2", "catalogue", none, none, none, none, none,
    none, none⟩

/-- A patch payload whose meta field is absent. -/
def updNoMeta : ScrapeTaskUpdate :=
  ⟨none, none, none, some "running", none, none, none, none, none, none⟩

/-- A patch payload whose meta field is an explicit null. -/
def updNullMeta : ScrapeTaskUpdate :=
  ⟨none, none, none, none, none, none, none, none, none, some none⟩

/-- A patch payload replacing meta with a concrete object. -/
def updSetMeta : ScrapeTaskUpdate :=
  ⟨none, none, none, none, none, none, none, none, none, some (some [("a", "b")])⟩

/-- A done task. -/
def taskDoneA : ScrapeTask :=
  ⟨3, "easylive", "https://c", "listing", "done", none, none, 0, 5, none, [], 0, 0⟩

/-- Another done task. -/
def taskDoneB : ScrapeTask :=
  ⟨4, "easylive", "https://d", "listing", "done", none, none, 0, 5, none, [], 0, 1⟩

/-- Two done tasks and nothing else. -/
def dbDonePair : DB := ⟨[taskDoneA, taskDoneB], [], [], [], []⟩

/-! ## Helper lemmas -/

/-- A task on the next_pending page is a stored task satisfying the
query's WHERE clause. -/
theorem mem_next_pending_items {now : Int} {limit : Nat} {db : DB} {t : ScrapeTask}
    (h : t ∈ (list_next_pending_tasks now limit db).items) :
    t ∈ db.scrape_tasks ∧ nextPendingPred now t = true := by
  have h1 : t ∈ (db.scrape_tasks.filter (nextPendingPred now)).insertionSort schedLe :=
    List.mem_of_mem_take h
  have h2 : t ∈ db.scrape_tasks.filter (nextPendingPred now) :=
    (List.mem_insertionSort schedLe).mp h1
  exact ⟨List.mem_of_mem_filter h2, List.of_mem_filter h2⟩

/-- A task on the pending_future page is a stored task satisfying the
query's WHERE clause. -/
theorem mem_pending_future_items {now : Int} {limit : Nat} {db : DB} {t : ScrapeTask}
    (h : t ∈ (list_pending_future_tasks now limit db).items) :
    t ∈ db.scrape_tasks ∧ pendingFuturePred now t = true := by
  have h1 : t ∈ (db.scrape_tasks.filter (pendingFuturePred now)).insertionSort schedLe :=
    List.mem_of_mem_take h
  have h2 : t ∈ db.scrape_tasks.filter (pendingFuturePred now) :=
    (List.mem_insertionSort schedLe).mp h1
  exact ⟨List.mem_of_mem_filter h2, List.of_mem_filter h2⟩

/-- Overwriting the found row makes it what a fresh primary-key lookup
returns. -/
theorem find?_setTask {task_id : Nat} {t t2 : ScrapeTask} {l : List ScrapeTask}
    (hfind : l.find? (fun u => u.id == task_id) = some t) (h2 : t2.id = task_id) :
    (setTask task_id t2 l).find? (fun u => u.id == task_id) = some t2 := by
  induction l with
  | nil => simp at hfind
  | cons a l ih =>
    by_cases ha : a.id == task_id
    · simp [setTask, ha, List.find?_cons_of_pos, h2]
    · have hstep : List.find? (fun u => u.id == task_id) (a :: l)
          = List.find? (fun u => u.id == task_id) l := List.find?_cons_of_neg l ha
      rw [hstep] at hfind
      simp only [setTask, ha, Bool.false_eq_true, if_false]
      have hstep2 : List.find? (fun u => u.id == task_id) (a :: setTask task_id t2 l)
          = List.find? (fun u => u.id == task_id) (setTask task_id t2 l) :=
        List.find?_cons_of_neg _ ha
      rw [hstep2]
      exact ih hfind

/-- With no two rows sharing an id, erasing the row with a given id leaves
no row with that id behind. -/
theorem find?_eraseP_of_nodup {l : List ScrapeTask} {task_id : Nat}
    (h : (l.map (fun t => t.id)).Nodup) :
    (l.eraseP (fun u => u.id == task_id)).find? (fun u => u.id == task_id) = none := by
  induction l with
  | nil => rfl
  | cons a l ih =>
    simp only [List.map_cons, List.nodup_cons] at h
    obtain ⟨hna, hl⟩ := h
    by_cases ha : a.id == task_id
    · have he : List.eraseP (fun u => u.id == task_id) (a :: l) = l :=
        List.eraseP_cons_of_pos ha
      rw [he]
      apply List.find?_eq_none.mpr
      intro x hx
      have hxid : x.id ∈ l.map (fun t => t.id) := List.mem_map_of_mem _ hx
      have haid : a.id = task_id := by simpa using ha
      simp only [beq_iff_eq]
      intro hxeq
      exact hna (haid ▸ hxeq ▸ hxid)
    · have he : List.eraseP (fun u => u.id == task_id) (a :: l)
          = a :: List.eraseP (fun u => u.id == task_id) l :=
        List.eraseP_cons_of_neg ha
      rw [he]
      have hstep : List.find? (fun u => u.id == task_id)
            (a :: List.eraseP (fun u => u.id == task_id) l)
          = List.find? (fun u => u.id == task_id)
            (List.eraseP (fun u => u.id == task_id) l) :=
        List.find?_cons_of_neg _ ha
      rw [hstep]
      exact ih hl

/-- A `%` pattern alone matches every string. -/
theorem likeMatchL_percent (s : List Char) : likeMatchL ['%'] s = true := by
  simp only [likeMatchL, if_pos rfl]
  apply List.any_eq_true.mpr
  refine ⟨[], ?_, by simp [likeMatchL]⟩
  simp [List.mem_tails]

/-- On a wildcard-free pattern, LIKE with a trailing `%` is exactly the
prefix test. -/
theorem likeMatchL_append_percent (p : List Char)
    (hp : ∀ c ∈ p, c ≠ '%' ∧ c ≠ '_') (s : List Char) :
    likeMatchL (p ++ ['%']) s = p.isPrefixOf s := by
  induction p generalizing s with
  | nil => simpa [List.isPrefixOf] using likeMatchL_percent s
  | cons a p ih =>
    obtain ⟨ha1, ha2⟩ := hp a (List.mem_cons_self a p)
    have hp' : ∀ c ∈ p, c ≠ '%' ∧ c ≠ '_' := fun c hc => hp c (List.mem_cons_of_mem a hc)
    cases s with
    | nil => simp [likeMatchL, List.isPrefixOf, ha1]
    | cons c cs =>
      simp [likeMatchL, List.isPrefixOf, ha1, ha2, ih hp' cs]

/-! ## Claim theorems -/

/-- C1: a create request whose (site, url, task_type, scheduled_at) tuple —
null equal to null — matches a stored pending task is answered 409 Conflict
with a matching pending task's id in the response body, and the database,
in particular the task table, is unchanged: no row is inserted. -/
theorem create_conflict_on_pending_duplicate
    (now : Int) (newId : Nat) (p : ScrapeTaskCreate) (db : DB)
    (h : ∃ t ∈ db.scrape_tasks, pendingDuplicate p t = true) :
    (create_scrape_task now newId p db).2 = db ∧
      ∃ ex ∈ db.scrape_tasks, pendingDuplicate p ex = true ∧
        (create_scrape_task now newId p db).1 = .conflict ex.id := by
  have hsome : (db.scrape_tasks.find? (pendingDuplicate p)).isSome :=
    List.find?_isSome.mpr h
  obtain ⟨ex, hex⟩ := Option.isSome_iff_exists.mp hsome
  refine ⟨?_, ex, List.mem_of_find?_eq_some hex, List.find?_some hex, ?_⟩ <;>
    simp [create_scrape_task, hex]

/-- C1 witness: a concrete duplicate create against `dbOneTask`. -/
theorem create_conflict_on_pending_duplicate_witness :
    (∃ t ∈ dbOneTask.scrape_tasks, pendingDuplicate createDupPayload t = true) ∧
      ((create_scrape_task 3 8 createDupPayload dbOneTask).2 = dbOneTask ∧
        ∃ ex ∈ dbOneTask.scrape_tasks, pendingDuplicate createDupPayload ex = true ∧
          (create_scrape_task 3 8 createDupPayload dbOneTask).1 = .conflict ex.id) :=
  ⟨by decide,
    create_conflict_on_pending_duplicate 3 8 createDupPayload dbOneTask (by decide)⟩

/-- C2: the dry run of the related-delete leaves every table unchanged and
returns the same matched task-id list as the real run started from the same
state; on a wildcard-free prefix those ids are exactly the ids of the
catalogue-type tasks whose url starts with the prefix. -/
theorem dry_run_related_delete_agrees (url : String) (db : DB) :
    (delete_scrape_task_related_records url true db).2 = db ∧
    (delete_scrape_task_related_records url true db).1.ids =
      (delete_scrape_task_related_records url false db).1.ids ∧
    ((∀ c ∈ url.data, c ≠ '%' ∧ c ≠ '_') →
      (delete_scrape_task_related_records url true db).1.ids =
        (db.scrape_tasks.filter (fun t =>
          url.data.isPrefixOf t.url.data && t.task_type == "catalogue")).map
          (fun t => t.id)) := by
  refine ⟨?_, ?_, ?_⟩
  · by_cases hc : (catalogueTaskIds url db).isEmpty <;>
      simp [delete_scrape_task_related_records, hc]
  · by_cases hc : (catalogueTaskIds url db).isEmpty <;>
      simp [delete_scrape_task_related_records, hc, RelatedDeleteResult.ids]
  · intro hw
    have hfilter : catalogueTaskIds url db
        = (db.scrape_tasks.filter (fun t =>
            url.data.isPrefixOf t.url.data && t.task_type == "catalogue")).map
            (fun t => t.id) := by
      unfold catalogueTaskIds
      congr 1
      apply List.filter_congr
      intro t _
      have hlike : likeMatch (url ++ "%") t.url = url.data.isPrefixOf t.url.data := by
        unfold likeMatch
        have hdata : (url ++ "%").data = url.data ++ ['%'] := by
          rw [String.data_append url "%"]
        rw [hdata]
        exact likeMatchL_append_percent url.data hw t.url.data
      rw [hlike]
    rw [← hfilter]
    by_cases hc : (catalogueTaskIds url db).isEmpty
    · have hnil : catalogueTaskIds url db = [] := List.isEmpty_iff.mp hc
      simp [delete_scrape_task_related_records, hc, RelatedDeleteResult.ids, hnil]
    · simp [delete_scrape_task_related_records, hc, RelatedDeleteResult.ids]

/-- C2 witness: a concrete dry run over `dbOneTask`. -/
theorem dry_run_related_delete_agrees_witness :
    (delete_scrape_task_related_records "https://x" true dbOneTask).2 = dbOneTask ∧
    (delete_scrape_task_related_records "https://x" true dbOneTask).1.ids =
      (dbOneTask.scrape_tasks.filter (fun t =>
        "https://x".data.isPrefixOf t.url.data && t.task_type == "catalogue")).map
        (fun t => t.id) :=
  ⟨(dry_run_related_delete_agrees "https://x" dbOneTask).1,
   (dry_run_related_delete_agrees "https://x" dbOneTask).2.2 (by decide)⟩

/-- C3 counterexample: with limit 1 for next_pending, the stored task
`taskDueB` is pending with a non-null scheduled_at yet is returned by
neither query, so the returned sets do not cover all such tasks. -/
theorem next_pending_future_cover_counterexample :
    taskDueB ∈ dbPendingPair.scrape_tasks ∧ taskDueB.status = "pending" ∧
    taskDueB.scheduled_at ≠ none ∧
    taskDueB ∉ (list_next_pending_tasks 5 1 dbPendingPair).items ∧
    taskDueB ∉ (list_pending_future_tasks 5 1 dbPendingPair).items := by
  decide

/-- C3 amended: at one evaluation time the two returned item lists are
disjoint, and every pending task with non-null scheduled_at satisfies
exactly one of the two queries' WHERE clauses (and so is counted in exactly
one of the reported totals); the returned item lists themselves cover the
matched sets only up to each query's limit truncation. -/
theorem next_pending_future_partition
    (now : Int) (limitN limitF : Nat) (db : DB) (t : ScrapeTask) :
    (t ∈ (list_next_pending_tasks now limitN db).items →
      t ∉ (list_pending_future_tasks now limitF db).items) ∧
    (t.status = "pending" → t.scheduled_at ≠ none →
      (nextPendingPred now t = true ↔ pendingFuturePred now t = false)) := by
  constructor
  · intro hn hf
    have h1 := (mem_next_pending_items hn).2
    have h2 := (mem_pending_future_items hf).2
    cases hs : t.scheduled_at with
    | none => simp [pendingFuturePred, hs] at h2
    | some s =>
      simp [nextPendingPred, hs] at h1
      simp [pendingFuturePred, hs] at h2
      omega
  · intro hst hsched
    cases hs : t.scheduled_at with
    | none => exact absurd hs hsched
    | some s =>
      simp [nextPendingPred, pendingFuturePred, hs, hst]

/-- C3 amended witness: the partition applied to `taskDueA` at a concrete
state and time. -/
theorem next_pending_future_partition_witness :
    taskDueA ∉ (list_pending_future_tasks 5 1 dbPendingPair).items ∧
      (nextPendingPred 5 taskDueA = true ↔ pendingFuturePred 5 taskDueA = false) :=
  ⟨(next_pending_future_partition 5 1 1 dbPendingPair taskDueA).1 (by decide),
   (next_pending_future_partition 5 1 1 dbPendingPair taskDueA).2 (by decide) (by decide)⟩

/-- C4: every task on the next_pending page has status pending, and its
scheduled_at, when non-null, is not after the query's evaluation time. -/
theorem next_pending_sound (now : Int) (limit : Nat) (db : DB) (t : ScrapeTask)
    (h : t ∈ (list_next_pending_tasks now limit db).items) :
    t.status = "pending" ∧ ∀ s, t.scheduled_at = some s → s ≤ now := by
  have hp := (mem_next_pending_items h).2
  cases hs : t.scheduled_at with
  | none =>
    simp [nextPendingPred, hs] at hp
    refine ⟨hp, ?_⟩
    intro s hcon
    cases hcon
  | some s0 =>
    simp [nextPendingPred, hs] at hp
    refine ⟨hp.1, ?_⟩
    intro s hsome
    injection hsome with he
    exact he ▸ hp.2

/-- C4 witness: the returned task `taskDueA` at a concrete state. -/
theorem next_pending_sound_witness :
    taskDueA.status = "pending" ∧ (taskDueA.scheduled_at = some 0 → (0 : Int) ≤ 5) :=
  ⟨(next_pending_sound 5 1 dbPendingPair taskDueA (by decide)).1,
   (next_pending_sound 5 1 dbPendingPair taskDueA (by decide)).2 0⟩

/-- C5: a partial update of an existing task succeeds and refreshes the
stored row; the new row's meta equals the old meta when the payload's meta
is absent, equals the old meta when the payload's meta is an explicit null,
and is wholly replaced when the payload's meta is a concrete object. -/
theorem update_meta_semantics (now : Int) (task_id : Nat) (p : ScrapeTaskUpdate)
    (db : DB) (t : ScrapeTask)
    (h : db.scrape_tasks.find? (fun u => u.id == task_id) = some t) :
    update_scrape_task now task_id p db =
      some (applyUpdate now p t,
        { db with
          scrape_tasks := setTask task_id (applyUpdate now p t) db.scrape_tasks }) ∧
    get_scrape_task task_id
        { db with
          scrape_tasks := setTask task_id (applyUpdate now p t) db.scrape_tasks } =
      some (applyUpdate now p t) ∧
    (p.meta = none → (applyUpdate now p t).meta = t.meta) ∧
    (p.meta = some none → (applyUpdate now p t).meta = t.meta) ∧
    (∀ m, p.meta = some (some m) → (applyUpdate now p t).meta = m) := by
  have hid : t.id = task_id := by simpa using List.find?_some h
  refine ⟨?_, ?_, ?_, ?_, ?_⟩
  · simp [update_scrape_task, h]
  · exact find?_setTask h (by simp [applyUpdate, hid])
  · intro hm
    simp [applyUpdate, hm]
  · intro hm
    simp [applyUpdate, hm]
  · intro m hm
    simp [applyUpdate, hm]

/-- C5 witness: the three meta shapes patched into `dbOneTask`'s task. -/
theorem update_meta_semantics_witness :
    ((applyUpdate 9 updNoMeta taskPendingNull).meta = taskPendingNull.meta) ∧
    ((applyUpdate 9 updNullMeta taskPendingNull).meta = taskPendingNull.meta) ∧
    ((applyUpdate 9 updSetMeta taskPendingNull).meta = [("a", "b")]) ∧
    get_scrape_task 7
        { dbOneTask with
          scrape_tasks :=
            setTask 7 (applyUpdate 9 updSetMeta taskPendingNull) dbOneTask.scrape_tasks } =
      some (applyUpdate 9 updSetMeta taskPendingNull) :=
  ⟨(update_meta_semantics 9 7 updNoMeta dbOneTask taskPendingNull (by decide)).2.2.1 rfl,
   (update_meta_semantics 9 7 updNullMeta dbOneTask taskPendingNull (by decide)).2.2.2.1 rfl,
   (update_meta_semantics 9 7 updSetMeta dbOneTask taskPendingNull
      (by decide)).2.2.2.2 [("a", "b")] rfl,
   (update_meta_semantics 9 7 updSetMeta dbOneTask taskPendingNull (by decide)).2.1⟩

/-- C6: deleting by id answers 404 when no row has the id; 409 with the
state unchanged (the task remains stored) when the found task's status is
running or done; and, when the status is pending or failed, removes the row
so that a subsequent get of the id is a 404 (given the primary-key
uniqueness of ids). -/
theorem delete_task_cases (task_id : Nat) (db : DB)
    (hnodup : (db.scrape_tasks.map (fun t => t.id)).Nodup) :
    ((∀ t ∈ db.scrape_tasks, t.id ≠ task_id) →
      delete_scrape_task task_id db = (.notFound, db)) ∧
    (∀ t, db.scrape_tasks.find? (fun u => u.id == task_id) = some t →
      ((t.status = "running" ∨ t.status = "done") →
        delete_scrape_task task_id db = (.conflict, db)) ∧
      ((t.status = "pending" ∨ t.status = "failed") →
        (delete_scrape_task task_id db).1 = .deleted ∧
        get_scrape_task task_id (delete_scrape_task task_id db).2 = none)) := by
  constructor
  · intro hnone
    have hfind : db.scrape_tasks.find? (fun u => u.id == task_id) = none :=
      List.find?_eq_none.mpr (by
        intro x hx
        simpa using hnone x hx)
    simp [delete_scrape_task, hfind]
  · intro t hfind
    constructor
    · intro hstat
      have hcond : (t.status == "pending" || t.status == "failed") = false := by
        rcases hstat with hs | hs <;> rw [hs] <;> decide
      simp [delete_scrape_task, hfind, hcond]
    · intro hstat
      have hcond : (t.status == "pending" || t.status == "failed") = true := by
        rcases hstat with hs | hs <;> rw [hs] <;> decide
      constructor
      · simp [delete_scrape_task, hfind, hcond]
      · have hsnd : (delete_scrape_task task_id db).2 =
            { db with
              scrape_tasks := db.scrape_tasks.eraseP (fun u => u.id == task_id) } := by
          simp [delete_scrape_task, hfind, hcond]
        rw [hsnd]
        exact find?_eraseP_of_nodup hnodup

/-- C6 witness: deleting the pending task of `dbOneTask`. -/
theorem delete_task_cases_witness :
    (delete_scrape_task 7 dbOneTask).1 = .deleted ∧
    get_scrape_task 7 (delete_scrape_task 7 dbOneTask).2 = none :=
  ((delete_task_cases 7 dbOneTask (by decide)).2 taskPendingNull (by decide)).2
    (Or.inl rfl)

/-- C7: in both paginated endpoints next_offset is null exactly when offset
plus the number of returned rows reaches the reported total, and is
offset plus the number of returned rows otherwise. -/
theorem next_offset_exhaustion
    (auctioneer_name catalogue_url : String) (limit offset : Nat) (db : DB) :
    ((list_listings_by_auctioneer auctioneer_name limit offset db).next_offset =
      if (list_listings_by_auctioneer auctioneer_name limit offset db).total ≤
          offset +
            (list_listings_by_auctioneer auctioneer_name limit offset db).items.length
      then none
      else some (offset +
        (list_listings_by_auctioneer auctioneer_name limit offset db).items.length)) ∧
    ((list_listing_snapshots_by_catalogue catalogue_url limit offset db).next_offset =
      if (list_listing_snapshots_by_catalogue catalogue_url limit offset db).total ≤
          offset +
            (list_listing_snapshots_by_catalogue catalogue_url limit
              offset db).items.length
      then none
      else some (offset +
        (list_listing_snapshots_by_catalogue catalogue_url limit
          offset db).items.length)) := by
  constructor <;>
  · simp only [list_listings_by_auctioneer, list_listing_snapshots_by_catalogue]
    split <;> split <;> first | rfl | omega

/-- C8: the auth gate answers 500 when the secret is unset (or empty, which
Python's truthiness folds into unset), 401 when a non-empty secret is
configured and the header is absent or different, and lets a request
through only when the header equals the configured secret. -/
theorem require_api_key_cases (expected api_key : Option String) :
    ((expected = none ∨ expected = some "") →
      require_api_key expected api_key = .serverError) ∧
    (∀ s, expected = some s → s ≠ "" → api_key ≠ some s →
      require_api_key expected api_key = .unauthorized) ∧
    (require_api_key expected api_key = .ok → api_key = expected) := by
  refine ⟨?_, ?_, ?_⟩
  · rintro (rfl | rfl) <;> simp [require_api_key]
  · rintro s rfl hne hnk
    simp [require_api_key, hne, hnk]
  · intro hok
    cases expected with
    | none => simp [require_api_key] at hok
    | some e =>
      by_cases he : e = ""
      · simp [require_api_key, he] at hok
      · by_cases hk : api_key = some e
        · exact hk
        · simp [require_api_key, he, hk] at hok

/-- C8 witness: the three branches at concrete keys. -/
theorem require_api_key_cases_witness :
    require_api_key none (some "k") = .serverError ∧
    require_api_key (some "s") (some "k") = .unauthorized ∧
    (some "s" : Option String) = some "s" :=
  ⟨(require_api_key_cases none (some "k")).1 (Or.inl rfl),
   (require_api_key_cases (some "s") (some "k")).2.1 "s" rfl (by decide) (by decide),
   (require_api_key_cases (some "s") (some "s")).2.2 (by decide)⟩

/-- C9: an empty configured secret is treated as unconfigured — every
request, whatever its key, gets the 500 response, and in particular an
empty presented key is never let through. -/
theorem empty_secret_fails_closed (api_key : Option String) :
    require_api_key (some "") api_key = .serverError ∧
    require_api_key (some "") (some "") ≠ .ok := by
  constructor
  · simp [require_api_key]
  · decide

/-- C10: the recent-completed page's total is the number of items actually
returned, which is capped by the limit — unlike the list endpoint, whose
total is the full filtered count before pagination; at a concrete state
with two done tasks and limit 1 the recent total is 1 while the done count
is 2. -/
theorem recent_total_is_returned_count
    (limit lim2 off2 : Nat) (f : ListFilters) (db : DB) :
    (list_recent_scrape_tasks limit db).total =
      (list_recent_scrape_tasks limit db).items.length ∧
    (list_recent_scrape_tasks limit db).items.length ≤ limit ∧
    (list_scrape_tasks f lim2 off2 db).total =
      (db.scrape_tasks.filter (listFilterPred f)).length ∧
    (list_recent_scrape_tasks 1 dbDonePair).total = 1 ∧
    (dbDonePair.scrape_tasks.filter (fun t => t.status == "done")).length = 2 := by
  refine ⟨rfl, ?_, rfl, by decide, by decide⟩
  show ((((db.scrape_tasks.filter (fun t => t.status == "done")).insertionSort
      recentLe).take limit).map (fun t => (t, listingCount db t.id))).length ≤ limit
  rw [List.length_map]
  exact List.length_take_le limit _

end ScrapeAPI
